import Mathlib

/-!
Shallow embedding of the two FastAPI services of this repository:
`main.py` (Team/Hero CRUD over a SQLite store through SQLModel) and
`First_app/main.py` (toy OAuth2 token service over a hardcoded user table).

Conventions of the embedding:
  * Each HTTP handler becomes a pure function from the database state (and
    the request data) to `Except Err (result × DB)` or `Except Err result`;
    raising `HTTPException(code, detail)` becomes `.error (.http code detail)`.
    An `.error` outcome leaves the store unchanged (the per-request session
    is rolled back), so error branches return no new state.
  * An unhandled Python exception (such as the `NameError` raised in
    `delete_one_team` when its 404 detail f-string reads the undefined
    variable `hero_id`) becomes `.error (.nameError n)`; the framework turns
    it into an HTTP 500 response, computed by `http_status`.
  * Machine integers: Python ints are unbounded, so ids and ages are `Int`.
  * Request payloads carry `Option` fields: `none` means the field was not
    present in the JSON body (pydantic `exclude_unset`).  For the columns
    that are nullable in the store (`age`, `team_id`) a present field may
    itself be `null`, hence `Option (Option Int)`.  Explicit `null` for the
    non-nullable string columns is outside the embedded payload type: such a
    request reaches `session.commit`, violates the NOT NULL constraint and
    rolls back, leaving the store unchanged.
  * SQLite assigns a fresh row id `max(existing ids) + 1` (`1` on an empty
    table); `next_row_id` reproduces this.
-/

/-- Row of the `team` table (`class Team` in `main.py`). -/
structure Team where
  id : Int
  name : String
  headquarters : String
deriving DecidableEq, Repr

/-- Row of the `hero` table (`class Hero` in `main.py`). -/
structure Hero where
  id : Int
  name : String
  age : Option Int
  team_id : Option Int
  secret_name : String
  hashed_password : String
deriving DecidableEq, Repr

/-- The whole persistent store: the two tables of `database.db`. -/
structure DB where
  teams : List Team
  heroes : List Hero
deriving DecidableEq, Repr

/-- Request body of `POST /teams` (`class TeamCreate`). -/
structure TeamCreate where
  name : String
  headquarters : String
deriving DecidableEq, Repr

/-- Request body of `PATCH /teams/{team_id}` (`class TeamUpdate`); `none`
means the field is absent from the JSON body. -/
structure TeamUpdate where
  name : Option String
  headquarters : Option String
deriving DecidableEq, Repr

/-- Request body of `POST /heroes` (`class HeroCreate`). -/
structure HeroCreate where
  name : String
  age : Option Int
  team_id : Option Int
  secret_name : String
  password : String
deriving DecidableEq, Repr

/-- Request body of `PATCH /heroes/{hero_id}` (`class HeroUpdate`); outer
`none` means the field is absent from the JSON body, the inner `Option`
of `age` and `team_id` is an explicit JSON `null`. -/
structure HeroUpdate where
  name : Option String
  secret_name : Option String
  age : Option (Option Int)
  team_id : Option (Option Int)
  password : Option String
deriving DecidableEq, Repr

/-- Error outcome of a handler. -/
inductive Err where
  /-- A raised `HTTPException(status_code, detail)`. -/
  | http (status : Int) (detail : String)
  /-- An unhandled Python `NameError` on the given undefined variable. -/
  | nameError (var : String)
  /-- An unhandled Python `AttributeError` (only on unreachable branches
  where `session.get` would return `None` after a membership check). -/
  | attrError (msg : String)
deriving DecidableEq, Repr

/-- HTTP status observed by the client: the code of an `HTTPException`, and
500 (Internal Server Error) for an unhandled Python exception. -/
def http_status : Err → Int
  | .http c _ => c
  | .nameError _ => 500
  | .attrError _ => 500

/-- Function `hash_password` of `main.py`: prepends the marker string. -/
def hash_password (password : String) : String :=
  "#$%" ++ password

/-- Fresh row id assigned by the SQLite store on INSERT: one more than the
largest existing id, 1 on an empty table. -/
def next_row_id (ids : List Int) : Int :=
  ids.foldr max 0 + 1

/-- Handler of `POST /teams` (`create_teams`): validate, insert, return the
inserted row (never fails). -/
def create_teams (db : DB) (team : TeamCreate) : Team × DB :=
  let db_team : Team :=
    { id := next_row_id (db.teams.map (·.id)),
      name := team.name,
      headquarters := team.headquarters }
  (db_team, { db with teams := db.teams ++ [db_team] })

/-- Handler of `GET /teams` (`fetch_all_teams`): 404 on an empty table,
otherwise all rows. -/
def fetch_all_teams (db : DB) : Except Err (List Team) :=
  if db.teams.isEmpty then
    .error (.http 404 ("no records found"))
  else
    .ok db.teams

/-- Handler of `GET /teams/{team_id}` (`fetch_one_team`): scan all rows,
collect the ids, 404 when the id is absent, else `session.get`. -/
def fetch_one_team (db : DB) (team_id : Int) : Except Err Team :=
  let id_list := db.teams.map (·.id)
  if team_id ∉ id_list then
    .error (.http 404 (s!"team with team id {team_id} not found"))
  else
    match db.teams.find? (fun t => t.id == team_id) with
    | some db_team => .ok db_team
    | none => .error (.attrError ("NoneType"))

/-- Handler of `PATCH /teams/{team_id}` (`update_team`).  The loop
`for team in db_team:` rebinds the name `team`, shadowing the request
payload; after the loop `team` is the last loaded row.  A row loaded from
the store has an empty pydantic fields-set (SQLModel `__new__` initialises
it to the empty set and SQLAlchemy row loading writes the instance dict
directly), so `team.model_dump(exclude_unset = True)` is the empty dict and
`sqlmodel_update` changes nothing: the handler returns the stored row
unchanged and the request payload is discarded. -/
def update_team (db : DB) (team_id : Int) (team : TeamUpdate) : Except Err (Team × DB) :=
  let id_list := db.teams.map (·.id)
  if team_id ∉ id_list then
    .error (.http 404 (s!"team with team id {team_id} not found"))
  else
    match db.teams.find? (fun t => t.id == team_id) with
    | some db_team => .ok (db_team, db)
    | none => .error (.attrError ("NoneType"))

/-- Handler of `DELETE /teams/{team_id}` (`delete_one_team`).  On a missing
id the code evaluates `f'hero with id {hero_id} not found'` but no variable
`hero_id` is in scope in this function, so Python raises
`NameError: name hero_id is not defined` before the `HTTPException` is
built; the client sees a 500, not a 404.  On an existing id the ORM delete
of the team nullifies the `team_id` of every dependent hero (the default
one-to-many relationship behaviour de-associates loaded children before
the parent row is deleted) and removes the team row. -/
def delete_one_team (db : DB) (team_id : Int) : Except Err (String × DB) :=
  let id_list := db.teams.map (·.id)
  if team_id ∉ id_list then
    .error (.nameError ("hero_id"))
  else
    match db.teams.find? (fun t => t.id == team_id) with
    | some db_team =>
        .ok (s!"team {db_team.name} deleted successfully",
             { db with
                 teams := db.teams.filter (fun t => t.id != team_id),
                 heroes := db.heroes.map (fun h =>
                   if h.team_id == some team_id then { h with team_id := none } else h) })
    | none => .error (.attrError ("NoneType"))

/-- Handler of `POST /heroes` (`create_hero`): hash the password, reject
with 409 when the hash already occurs in the table, else insert. -/
def create_hero (db : DB) (hero : HeroCreate) : Except Err (Hero × DB) :=
  let hashed_password := hash_password hero.password
  let pwd_list := db.heroes.map (·.hashed_password)
  if hashed_password ∈ pwd_list then
    .error (.http 409 (s!"password {hero.password} already taken"))
  else
    let db_hero : Hero :=
      { id := next_row_id (db.heroes.map (·.id)),
        name := hero.name,
        age := hero.age,
        team_id := hero.team_id,
        secret_name := hero.secret_name,
        hashed_password := hashed_password }
    .ok (db_hero, { db with heroes := db.heroes ++ [db_hero] })

/-- Handler of `GET /heroes` (`get_all_hero`): 404 on an empty table,
otherwise all rows (the detail string has a leading space in the source). -/
def get_all_hero (db : DB) : Except Err (List Hero) :=
  if db.heroes.isEmpty then
    .error (.http 404 (" no records found"))
  else
    .ok db.heroes

/-- Handler of `GET /heroes/{hero_id}` (`get_one_hero`): scan all rows,
404 when the id is absent, else `session.get`. -/
def get_one_hero (db : DB) (hero_id : Int) : Except Err Hero :=
  let id_list := db.heroes.map (·.id)
  if hero_id ∉ id_list then
    .error (.http 404 (s!"hero with id {hero_id} not found"))
  else
    match db.heroes.find? (fun h => h.id == hero_id) with
    | some db_hero => .ok db_hero
    | none => .error (.attrError ("NoneType"))

/-- Result of `db_hero.sqlmodel_update(hero_update_data, update = extra)`
on a hero row: each present payload field that names a `Hero` column is
assigned (`password` is not a `Hero` column, so it is skipped) and `extra`
optionally assigns `hashed_password`. -/
def sqlmodel_update_hero (db_hero : Hero) (data : HeroUpdate) (extra : Option String) : Hero :=
  { db_hero with
      name := data.name.getD db_hero.name,
      secret_name := data.secret_name.getD db_hero.secret_name,
      age := data.age.getD db_hero.age,
      team_id := data.team_id.getD db_hero.team_id,
      hashed_password := extra.getD db_hero.hashed_password }

/-- Handler of `PATCH /heroes/{hero_id}` (`update_heroes`): scan ids, 404
when absent; when the payload carries a `password`, accept the update only
when its hash equals the stored `hashed_password` (then re-store that same
hash), otherwise 409; without a `password` apply the provided fields. -/
def update_heroes (db : DB) (hero_id : Int) (hero : HeroUpdate) : Except Err (Hero × DB) :=
  let id_list := db.heroes.map (·.id)
  if hero_id ∉ id_list then
    .error (.http 404 (s!"hero with id {hero_id} not found"))
  else
    match db.heroes.find? (fun h => h.id == hero_id) with
    | some db_hero =>
        match hero.password with
        | some pw =>
            if hash_password pw == db_hero.hashed_password then
              let h2 := sqlmodel_update_hero db_hero hero (some (hash_password pw))
              .ok (h2, { db with heroes := db.heroes.map (fun h =>
                     if h.id == hero_id then h2 else h) })
            else
              .error (.http 409 ("password already taken"))
        | none =>
            let h2 := sqlmodel_update_hero db_hero hero none
            .ok (h2, { db with heroes := db.heroes.map (fun h =>
                   if h.id == hero_id then h2 else h) })
    | none => .error (.attrError ("NoneType"))

/-- Handler of `DELETE /heroes/{hero_id}` (`delete_one_hero`): direct
`session.get` (no scan), 404 with the default detail when absent, else
delete. -/
def delete_one_hero (db : DB) (hero_id : Int) : Except Err (String × DB) :=
  match db.heroes.find? (fun h => h.id == hero_id) with
  | none => .error (.http 404 ("Not Found"))
  | some db_hero =>
      .ok (s!"hero {db_hero.name} deleted",
           { db with heroes := db.heroes.filter (fun h => h.id != hero_id) })

/-- One PATCH /heroes request applied as a state transition: an error
response leaves the store unchanged. -/
def hero_patch_step (db : DB) (req : Int × HeroUpdate) : DB :=
  match update_heroes db req.1 req.2 with
  | .ok r => r.2
  | .error _ => db

/-- A sequence of PATCH /heroes requests applied in order. -/
def apply_hero_patches (reqs : List (Int × HeroUpdate)) (db : DB) : DB :=
  reqs.foldl hero_patch_step db

/-!
Spec-side variants for the refinement claim: §9 of the specification asks
for "a direct keyed lookup returning an optional record" followed by a 404
on absence, in place of the scan-and-membership existence check.  These
definitions follow that wording; the action taken on a present record is
the one the corresponding handler performs.
-/

/-- Direct-lookup variant of `fetch_one_team` (modelled from the spec). -/
def fetch_one_team_by_lookup (db : DB) (team_id : Int) : Except Err Team :=
  match db.teams.find? (fun t => t.id == team_id) with
  | none => .error (.http 404 (s!"team with team id {team_id} not found"))
  | some db_team => .ok db_team

/-- Direct-lookup variant of `update_team` (modelled from the spec). -/
def update_team_by_lookup (db : DB) (team_id : Int) (team : TeamUpdate) :
    Except Err (Team × DB) :=
  match db.teams.find? (fun t => t.id == team_id) with
  | none => .error (.http 404 (s!"team with team id {team_id} not found"))
  | some db_team => .ok (db_team, db)

/-- Direct-lookup variant of `delete_one_team` (modelled from the spec):
404 on absence, same deletion on presence. -/
def delete_one_team_by_lookup (db : DB) (team_id : Int) : Except Err (String × DB) :=
  match db.teams.find? (fun t => t.id == team_id) with
  | none => .error (.http 404 (s!"team with team id {team_id} not found"))
  | some db_team =>
      .ok (s!"team {db_team.name} deleted successfully",
           { db with
               teams := db.teams.filter (fun t => t.id != team_id),
               heroes := db.heroes.map (fun h =>
                 if h.team_id == some team_id then { h with team_id := none } else h) })

/-- Direct-lookup variant of `get_one_hero` (modelled from the spec). -/
def get_one_hero_by_lookup (db : DB) (hero_id : Int) : Except Err Hero :=
  match db.heroes.find? (fun h => h.id == hero_id) with
  | none => .error (.http 404 (s!"hero with id {hero_id} not found"))
  | some db_hero => .ok db_hero

/-- Direct-lookup variant of `update_heroes` (modelled from the spec). -/
def update_heroes_by_lookup (db : DB) (hero_id : Int) (hero : HeroUpdate) :
    Except Err (Hero × DB) :=
  match db.heroes.find? (fun h => h.id == hero_id) with
  | none => .error (.http 404 (s!"hero with id {hero_id} not found"))
  | some db_hero =>
      match hero.password with
      | some pw =>
          if hash_password pw == db_hero.hashed_password then
            let h2 := sqlmodel_update_hero db_hero hero (some (hash_password pw))
            .ok (h2, { db with heroes := db.heroes.map (fun h =>
                   if h.id == hero_id then h2 else h) })
          else
            .error (.http 409 ("password already taken"))
      | none =>
          let h2 := sqlmodel_update_hero db_hero hero none
          .ok (h2, { db with heroes := db.heroes.map (fun h =>
                 if h.id == hero_id then h2 else h) })

/-- Direct-lookup variant of `delete_one_hero` (modelled from the spec);
the handler itself already uses `session.get`, so the two coincide
definitionally. -/
def delete_one_hero_by_lookup (db : DB) (hero_id : Int) : Except Err (String × DB) :=
  match db.heroes.find? (fun h => h.id == hero_id) with
  | none => .error (.http 404 ("Not Found"))
  | some db_hero =>
      .ok (s!"hero {db_hero.name} deleted",
           { db with heroes := db.heroes.filter (fun h => h.id != hero_id) })

/-!
The auth toy service, `First_app/main.py`.
-/

/-- Entry of the hardcoded user table (`class UserInDb`). -/
structure UserInDb where
  username : String
  email : String
  fullname : String
  disabled : Bool
  hashed_password : String
deriving DecidableEq, Repr

/-- The hardcoded user table `fake_users_db`. -/
def fake_users_db : List (String × UserInDb) :=
  [("johndoe",
    { username := "johndoe",
      email := "johndoe@gmail.com",
      fullname := "John Doe",
      hashed_password := "fakehashedsecret",
      disabled := true }),
   ("alice",
    { username := "alice",
      email := "alice20@gmail.com",
      fullname := "Alice Wonderson",
      hashed_password := "fakehashedsecret2",
      disabled := false })]

/-- Function `fake_password_hasher`: prepends the marker string. -/
def fake_password_hasher (password : String) : String :=
  "fakehashed" ++ password

/-- Function `get_user`: test membership of `username` in the keys of the
passed table, then read the entry out of the global `fake_users_db` (the
source indexes the global, not the parameter); `None` when absent. -/
def get_user (db : List (String × UserInDb)) (username : String) : Option UserInDb :=
  if username ∈ db.map (·.1) then
    (fake_users_db.find? (fun kv => kv.1 == username)).map (·.2)
  else
    none

/-- Body of `POST /token` and of `login` successfully. -/
structure TokenResponse where
  access_token : String
  token_type : String
deriving DecidableEq, Repr

/-- Function `fake_decode_token`: look the token up as a username, 400 when
absent. -/
def fake_decode_token (token : String) : Except Err UserInDb :=
  match get_user fake_users_db token with
  | none => .error (.http 400 ("incorrect username or password"))
  | some user => .ok user

/-- Dependency `get_current_user`: decode the bearer token; the second
`if not user` test never fires because `fake_decode_token` has already
raised on a missing user. -/
def get_current_user (token : String) : Except Err UserInDb :=
  fake_decode_token token

/-- Dependency `get_current_active_user`: 400 for a disabled user. -/
def get_current_active_user (token : String) : Except Err UserInDb := do
  let current_user ← get_current_user token
  if current_user.disabled then
    .error (.http 400 ("Inactive User"))
  else
    .ok current_user

/-- Handler of `POST /token` (`login`): decode the username, hash the
submitted password and compare it against the stored hash with
`secrets.compare_digest` (equality of the two strings), answering the
username itself as the bearer token. -/
def login (username : String) (password : String) : Except Err TokenResponse := do
  let user ← fake_decode_token username
  let hashed_password := fake_password_hasher password
  if hashed_password == user.hashed_password then
    .ok { access_token := user.username, token_type := "Bearer" }
  else
    .error (.http 400 ("incorrect username or password"))

/-- Handler of `GET /users/me` (`read_users_me`): return the current active
user for the presented bearer token. -/
def read_users_me (token : String) : Except Err UserInDb :=
  get_current_active_user token

/-!
Helper lemmas shared by the claim theorems.
-/

/-- Membership of a key in the projected id list is the same as success of
the keyed `find?`, connecting the scan-and-membership pattern of the
handlers with a direct lookup. -/
theorem mem_map_iff_find?_isSome {α : Type} (f : α → Int) (l : List α) (x : Int) :
    x ∈ l.map f ↔ (l.find? (fun t => f t == x)).isSome := by
  simp [List.mem_map, List.find?_isSome]

/-- A key absent from the projected id list makes the keyed `find?` fail. -/
theorem find?_eq_none_of_not_mem_map {α : Type} (f : α → Int) (l : List α) (x : Int)
    (hx : x ∉ l.map f) : l.find? (fun t => f t == x) = none := by
  rw [List.find?_eq_none]
  intro a ha hpa
  exact hx (by
    have hfa : f a = x := by simpa using hpa
    exact hfa ▸ List.mem_map_of_mem f ha)

/-- Every member of a list is bounded by its `foldr max 0`. -/
theorem le_foldr_max (x : Int) (l : List Int) (hx : x ∈ l) : x ≤ l.foldr max 0 := by
  induction l with
  | nil => cases hx
  | cons a l ih =>
    rcases List.mem_cons.mp hx with h | h
    · exact h ▸ le_max_left _ _
    · exact le_trans (ih h) (le_max_right _ _)

/-- The row id assigned by the store is strictly larger than every existing
id, hence fresh. -/
theorem mem_lt_next_row_id (x : Int) (l : List Int) (hx : x ∈ l) : x < next_row_id l := by
  unfold next_row_id
  exact lt_of_le_of_lt (le_foldr_max x l hx) (lt_add_one _)

/-- Claim C6: GET /teams and GET /heroes answer 404 (not found) exactly when
their table holds no rows, and otherwise answer the list of all stored
rows. -/
theorem list_endpoints_404_on_empty (db : DB) :
    (db.teams = [] → fetch_all_teams db = .error (.http 404 ("no records found")))
    ∧ (db.teams ≠ [] → fetch_all_teams db = .ok db.teams)
    ∧ (db.heroes = [] → get_all_hero db = .error (.http 404 (" no records found")))
    ∧ (db.heroes ≠ [] → get_all_hero db = .ok db.heroes) := by
  refine ⟨?_, ?_, ?_, ?_⟩ <;> intro h <;>
    simp [fetch_all_teams, get_all_hero, List.isEmpty_iff, h]

/-- Witness for claim C6 at concrete stores: one empty and one with a
single row, for each of the two tables. -/
theorem list_endpoints_404_on_empty_witness :
    fetch_all_teams { teams := [], heroes := [] } = .error (.http 404 ("no records found"))
    ∧ fetch_all_teams { teams := [⟨1, "Preventers", "Sharp Tower"⟩], heroes := [] }
        = .ok [⟨1, "Preventers", "Sharp Tower"⟩]
    ∧ get_all_hero { teams := [], heroes := [] } = .error (.http 404 (" no records found"))
    ∧ get_all_hero { teams := [], heroes := [⟨1, "Deadpond", none, none, "Dive Wilson", "#$%pw"⟩] }
        = .ok [⟨1, "Deadpond", none, none, "Dive Wilson", "#$%pw"⟩] :=
  ⟨(list_endpoints_404_on_empty _).1 rfl,
   (list_endpoints_404_on_empty _).2.1 (by simp),
   (list_endpoints_404_on_empty _).2.2.1 rfl,
   (list_endpoints_404_on_empty _).2.2.2 (by simp)⟩

/-- Claim C9: in the auth service, POST /token for the user alice with the
password whose hash is her stored hash answers the access token alice;
POST /token for johndoe with his correct password succeeds, but
GET /users/me with the token johndoe answers 400 because that user is
disabled. -/
theorem auth_toy_token_flow :
    login ("alice") ("secret2") = .ok { access_token := "alice", token_type := "Bearer" }
    ∧ fake_password_hasher ("secret2") = "fakehashedsecret2"
    ∧ login ("johndoe") ("secret") = .ok { access_token := "johndoe", token_type := "Bearer" }
    ∧ fake_password_hasher ("secret") = "fakehashedsecret"
    ∧ read_users_me ("johndoe") = .error (.http 400 ("Inactive User")) := by
  refine ⟨rfl, rfl, rfl, rfl, rfl⟩

/-- Claim C2 (code bug): the handler of DELETE /teams/{team_id} is meant to
answer 404 for a missing id, but its 404 branch evaluates an f-string over
the undefined variable `hero_id`, so Python raises `NameError` and the
client sees a 500; the team table is left unchanged (the embedding returns
no new state on any error, matching the rolled-back session). -/
theorem delete_missing_team_raises_nameerror :
    (∀ db team_id, team_id ∉ db.teams.map (·.id) →
        delete_one_team db team_id = .error (.nameError ("hero_id")))
    ∧ delete_one_team { teams := [⟨1, "Avengers", "NY"⟩], heroes := [] } 2
        = .error (.nameError ("hero_id"))
    ∧ http_status (Err.nameError ("hero_id")) = 500
    ∧ http_status (Err.nameError ("hero_id")) ≠ 404 := by
  refine ⟨?_, by simp [delete_one_team], rfl, by decide⟩
  intro db team_id h
  simp [delete_one_team, h]

/-- Witness for claim C2: the general not-found branch applied to the empty
store. -/
theorem delete_missing_team_raises_nameerror_witness :
    delete_one_team { teams := [], heroes := [] } 1 = .error (.nameError ("hero_id")) :=
  delete_missing_team_raises_nameerror.1 { teams := [], heroes := [] } 1 (by simp)

/-- Claim C3 (code bug): PATCH /teams/{team_id} is meant to apply exactly
the provided payload fields, but the loop variable `team` shadows the
payload parameter, and the dump of the shadowing loaded row with
`exclude_unset` is empty, so the handler applies nothing at all: on an
existing id it answers the stored row unchanged and the store is
unchanged, whatever the payload says. -/
theorem team_patch_discards_payload :
    (∀ db team_id p t, db.teams.find? (fun x => x.id == team_id) = some t →
        update_team db team_id p = .ok (t, db))
    ∧ update_team { teams := [⟨1, "Wakanda", "Birnin Zana"⟩], heroes := [] } 1
        { name := some ("Latveria"), headquarters := none }
        = .ok (⟨1, "Wakanda", "Birnin Zana"⟩,
               { teams := [⟨1, "Wakanda", "Birnin Zana"⟩], heroes := [] }) := by
  constructor
  · intro db team_id p t ht
    have hmem : team_id ∈ db.teams.map (·.id) :=
      (mem_map_iff_find?_isSome _ _ _).mpr (by simp [ht])
    simp [update_team, hmem, ht]
  · simp [update_team]

/-- Witness for claim C3: the no-op branch applied to a concrete store and
a payload that asks for a new name. -/
theorem team_patch_discards_payload_witness :
    update_team { teams := [⟨2, "Z-Force", "Sister Margaret"⟩], heroes := [] } 2
      { name := some ("New Z-Force"), headquarters := some ("Elsewhere") }
      = .ok (⟨2, "Z-Force", "Sister Margaret"⟩,
             { teams := [⟨2, "Z-Force", "Sister Margaret"⟩], heroes := [] }) :=
  team_patch_discards_payload.1 _ 2 _ _ (by simp)

/-- Fetching by id after appending a row whose id is fresh yields exactly
that row. -/
theorem fetch_appended_fresh (db : DB) (nt : Team)
    (hf : ∀ t ∈ db.teams, t.id ≠ nt.id) :
    fetch_one_team { db with teams := db.teams ++ [nt] } nt.id = .ok nt := by
  have hmem : nt.id ∈ (db.teams ++ [nt]).map (·.id) := by simp
  have h1 : db.teams.find? (fun t => t.id == nt.id) = none := by
    rw [List.find?_eq_none]
    intro x hx
    simpa using hf x hx
  have hfind : (db.teams ++ [nt]).find? (fun t => t.id == nt.id) = some nt := by
    rw [List.find?_append, h1]
    simp [List.find?]
  simp [fetch_one_team, hmem, hfind]

/-- Claim C8: POST /teams followed by GET /teams/{id} at the returned id is
a round trip: the fetched team carries the name and headquarters of the
creation payload. -/
theorem create_then_fetch_team_roundtrip (db : DB) (tc : TeamCreate) :
    fetch_one_team (create_teams db tc).2 (create_teams db tc).1.id = .ok (create_teams db tc).1
    ∧ (create_teams db tc).1.name = tc.name
    ∧ (create_teams db tc).1.headquarters = tc.headquarters := by
  refine ⟨?_, rfl, rfl⟩
  exact fetch_appended_fresh db (create_teams db tc).1 (fun t ht =>
    ne_of_lt (mem_lt_next_row_id _ _ (List.mem_map_of_mem _ ht)))

/-- Counterexample for claim C5: replacing the scan-and-membership check of
DELETE /teams/{team_id} by a direct keyed lookup followed by 404 on absence
does change observable behaviour, because the not-found branch of the
handler raises a NameError (HTTP 500) instead of answering 404. -/
theorem scan_vs_lookup_counterexample :
    delete_one_team { teams := [], heroes := [] } 1
      ≠ delete_one_team_by_lookup { teams := [], heroes := [] } 1 := by
  simp [delete_one_team, delete_one_team_by_lookup]

/-- Claim C5 (amended): for GET /teams/{id}, PATCH /teams/{id},
GET /heroes/{id} and PATCH /heroes/{id} the scan-and-membership existence
check is observationally equivalent to a direct keyed lookup followed by a
404 on absence, and DELETE /heroes/{id} already is that direct lookup; only
DELETE /teams/{id} differs (its not-found branch raises NameError, see the
counterexample). -/
theorem scan_handlers_equal_lookup :
    (∀ db team_id, fetch_one_team db team_id = fetch_one_team_by_lookup db team_id)
    ∧ (∀ db team_id p, update_team db team_id p = update_team_by_lookup db team_id p)
    ∧ (∀ db hero_id, get_one_hero db hero_id = get_one_hero_by_lookup db hero_id)
    ∧ (∀ db hero_id p, update_heroes db hero_id p = update_heroes_by_lookup db hero_id p)
    ∧ (∀ db hero_id, delete_one_hero db hero_id = delete_one_hero_by_lookup db hero_id) := by
  refine ⟨?_, ?_, ?_, ?_, fun db hero_id => rfl⟩
  · intro db team_id
    by_cases hmem : team_id ∈ db.teams.map (·.id)
    · have hsome := (mem_map_iff_find?_isSome (·.id) db.teams team_id).mp hmem
      obtain ⟨t, ht⟩ := Option.isSome_iff_exists.mp hsome
      simp [fetch_one_team, fetch_one_team_by_lookup, hmem, ht]
    · have hnone := find?_eq_none_of_not_mem_map (·.id) db.teams team_id hmem
      simp [fetch_one_team, fetch_one_team_by_lookup, hmem, hnone]
  · intro db team_id p
    by_cases hmem : team_id ∈ db.teams.map (·.id)
    · have hsome := (mem_map_iff_find?_isSome (·.id) db.teams team_id).mp hmem
      obtain ⟨t, ht⟩ := Option.isSome_iff_exists.mp hsome
      simp [update_team, update_team_by_lookup, hmem, ht]
    · have hnone := find?_eq_none_of_not_mem_map (·.id) db.teams team_id hmem
      simp [update_team, update_team_by_lookup, hmem, hnone]
  · intro db hero_id
    by_cases hmem : hero_id ∈ db.heroes.map (·.id)
    · have hsome := (mem_map_iff_find?_isSome (·.id) db.heroes hero_id).mp hmem
      obtain ⟨h, hh⟩ := Option.isSome_iff_exists.mp hsome
      simp [get_one_hero, get_one_hero_by_lookup, hmem, hh]
    · have hnone := find?_eq_none_of_not_mem_map (·.id) db.heroes hero_id hmem
      simp [get_one_hero, get_one_hero_by_lookup, hmem, hnone]
  · intro db hero_id p
    by_cases hmem : hero_id ∈ db.heroes.map (·.id)
    · have hsome := (mem_map_iff_find?_isSome (·.id) db.heroes hero_id).mp hmem
      obtain ⟨h, hh⟩ := Option.isSome_iff_exists.mp hsome
      simp [update_heroes, update_heroes_by_lookup, hmem, hh]
    · have hnone := find?_eq_none_of_not_mem_map (·.id) db.heroes hero_id hmem
      simp [update_heroes, update_heroes_by_lookup, hmem, hnone]

/-- Claim C4: POST /heroes answers 409 and inserts nothing when the hash of
the submitted password equals the stored hash of some hero, inserts the new
hero otherwise, and in particular a second creation with the same plaintext
password is rejected with 409. -/
theorem hero_create_password_uniqueness :
    (∀ db hc, (∃ h ∈ db.heroes, h.hashed_password = hash_password hc.password) →
        create_hero db hc = .error (.http 409 (s!"password {hc.password} already taken")))
    ∧ (∀ db hc, (∀ h ∈ db.heroes, h.hashed_password ≠ hash_password hc.password) →
        ∃ nh, create_hero db hc = .ok (nh, { db with heroes := db.heroes ++ [nh] })
          ∧ nh.hashed_password = hash_password hc.password
          ∧ nh.name = hc.name ∧ nh.secret_name = hc.secret_name
          ∧ nh.age = hc.age ∧ nh.team_id = hc.team_id)
    ∧ (∀ db hc1 hc2 nh db2, hc2.password = hc1.password →
        create_hero db hc1 = .ok (nh, db2) →
        create_hero db2 hc2 = .error (.http 409 (s!"password {hc2.password} already taken"))) := by
  refine ⟨?_, ?_, ?_⟩
  · intro db hc hdup
    have hmem : hash_password hc.password ∈ db.heroes.map (·.hashed_password) := by
      obtain ⟨h, hh, he⟩ := hdup
      exact he ▸ List.mem_map_of_mem _ hh
    simp [create_hero, hmem]
  · intro db hc hfresh
    have hmem : hash_password hc.password ∉ db.heroes.map (·.hashed_password) := by
      intro hc2
      obtain ⟨h, hh, he⟩ := List.mem_map.mp hc2
      exact hfresh h hh he
    refine ⟨{ id := next_row_id (db.heroes.map (·.id)), name := hc.name, age := hc.age,
              team_id := hc.team_id, secret_name := hc.secret_name,
              hashed_password := hash_password hc.password }, ?_, rfl, rfl, rfl, rfl, rfl⟩
    simp [create_hero, hmem]
  · intro db hc1 hc2 nh db2 hpw hok
    by_cases hmem : hash_password hc1.password ∈ db.heroes.map (·.hashed_password)
    · simp [create_hero, hmem] at hok
    · simp only [create_hero, hmem, if_neg, if_false] at hok
      have hpair := (Except.ok.injEq _ _).mp hok
      rw [Prod.mk.injEq] at hpair
      have hmem2 : hash_password hc2.password ∈ db2.heroes.map (·.hashed_password) := by
        rw [← hpair.2, hpw]
        simp
      simp [create_hero, hmem2]

/-- Witness for claim C4: on an empty store the first creation succeeds and
the second one with the same plaintext password is answered 409. -/
theorem hero_create_password_uniqueness_witness :
    (∃ nh, create_hero { teams := [], heroes := [] }
        { name := "Deadpond", age := none, team_id := none,
          secret_name := "Dive Wilson", password := "chimichanga" }
        = .ok (nh, { teams := [],
                     heroes := [] ++ [nh] })
      ∧ nh.hashed_password = hash_password ("chimichanga")
      ∧ nh.name = "Deadpond" ∧ nh.secret_name = "Dive Wilson"
      ∧ nh.age = none ∧ nh.team_id = none)
    ∧ create_hero { teams := [],
                    heroes := [⟨1, "Deadpond", none, none, "Dive Wilson", "#$%chimichanga"⟩] }
        { name := "Rusty-Man", age := some 48, team_id := none,
          secret_name := "Tommy Sharp", password := "chimichanga" }
        = .error (.http 409 ("password chimichanga already taken")) :=
  ⟨hero_create_password_uniqueness.2.1 _ _ (by simp),
   hero_create_password_uniqueness.1 _ _
     ⟨⟨1, "Deadpond", none, none, "Dive Wilson", "#$%chimichanga"⟩, by simp, rfl⟩⟩

/-- Replacing, in a list of heroes, every record keyed by `i` with a record
whose id is `i` moves the keyed lookup to the replacement. -/
theorem find?_map_replace (l : List Hero) (i : Int) (h h2 : Hero)
    (hid : h2.id = i)
    (hfind : l.find? (fun x => x.id == i) = some h) :
    (l.map (fun x => if x.id == i then h2 else x)).find? (fun x => x.id == i) = some h2 := by
  induction l with
  | nil => simp at hfind
  | cons a l ih =>
    by_cases ha : a.id = i
    · simp [ha, hid]
    · rw [List.find?_cons_of_neg _ (by simp [ha])] at hfind
      simp only [List.map_cons]
      rw [if_neg (by simp [ha]), List.find?_cons_of_neg _ (by simp [ha])]
      exact ih hfind

/-- Replacing every hero keyed by `i` with a record carrying the same id
and the same hashed password preserves the (id, hashed password)
projection of the table, when ids are unique and the replaced record is
the one the keyed lookup finds. -/
theorem map_replace_preserves_pairs (l : List Hero) (i : Int) (dh h2 : Hero)
    (hnd : (l.map (·.id)).Nodup)
    (hfind : l.find? (fun x => x.id == i) = some dh)
    (hid : h2.id = dh.id) (hpw : h2.hashed_password = dh.hashed_password) :
    (l.map (fun h => if h.id == i then h2 else h)).map (fun h => (h.id, h.hashed_password))
      = l.map (fun h => (h.id, h.hashed_password)) := by
  induction l with
  | nil => rfl
  | cons a l ih =>
    rw [List.map_cons] at hnd
    obtain ⟨hna, hnd2⟩ := List.nodup_cons.mp hnd
    by_cases ha : a.id = i
    · rw [List.find?_cons_of_pos _ (by simp [ha])] at hfind
      have hda : a = dh := by injection hfind
      subst hda
      have hrest : l.map (fun h => if h.id == i then h2 else h) = l := by
        conv_rhs => rw [← List.map_id l]
        apply List.map_congr_left
        intro x hx
        rw [if_neg]
        · rfl
        · simp only [beq_iff_eq]
          intro hxe
          have hxa : x.id = a.id := hxe.trans ha.symm
          exact hna (hxa ▸ List.mem_map_of_mem (fun y => y.id) hx)
      simp only [List.map_cons, hrest]
      rw [if_pos (by simp [ha])]
      rw [hid, hpw]
    · have hna2 : (a.id == i) = false := by simp [ha]
      rw [List.find?_cons_of_neg _ (by simp [ha])] at hfind
      simp only [List.map_cons, hna2, if_false, Bool.false_eq_true]
      rw [ih hnd2 hfind]

/-- One PATCH /heroes request leaves the (id, hashed password) projection
of the hero table unchanged, whatever its payload, provided the stored ids
are unique (they are primary keys). -/
theorem hero_patch_step_preserves_pairs (db : DB) (req : Int × HeroUpdate)
    (hnd : (db.heroes.map (·.id)).Nodup) :
    (hero_patch_step db req).heroes.map (fun h => (h.id, h.hashed_password))
      = db.heroes.map (fun h => (h.id, h.hashed_password)) := by
  by_cases hmem : req.1 ∈ db.heroes.map (·.id)
  · obtain ⟨dh, hdh⟩ := Option.isSome_iff_exists.mp ((mem_map_iff_find?_isSome _ _ _).mp hmem)
    cases hpw : req.2.password with
    | none =>
        have hgoal : hero_patch_step db req = { db with heroes := db.heroes.map (fun h =>
            if h.id == req.1 then sqlmodel_update_hero dh req.2 none else h) } := by
          simp [hero_patch_step, update_heroes, hmem, hdh, hpw]
        rw [hgoal]
        exact map_replace_preserves_pairs _ _ dh _ hnd hdh rfl rfl
    | some pw =>
        by_cases hok : hash_password pw = dh.hashed_password
        · have hgoal : hero_patch_step db req = { db with heroes := db.heroes.map (fun h =>
              if h.id == req.1 then sqlmodel_update_hero dh req.2 (some (hash_password pw)) else h) } := by
            simp [hero_patch_step, update_heroes, hmem, hdh, hpw, hok]
          rw [hgoal]
          exact map_replace_preserves_pairs _ _ dh _ hnd hdh rfl hok
        · have hgoal : hero_patch_step db req = db := by
            simp [hero_patch_step, update_heroes, hmem, hdh, hpw, hok]
          rw [hgoal]
  · have hgoal : hero_patch_step db req = db := by
      simp [hero_patch_step, update_heroes, hmem]
    rw [hgoal]

/-- One PATCH /heroes request leaves the stored id list unchanged. -/
theorem hero_patch_step_preserves_ids (db : DB) (req : Int × HeroUpdate)
    (hnd : (db.heroes.map (·.id)).Nodup) :
    (hero_patch_step db req).heroes.map (·.id) = db.heroes.map (·.id) := by
  have h := congrArg (List.map Prod.fst) (hero_patch_step_preserves_pairs db req hnd)
  simpa [List.map_map, Function.comp] using h

/-- Claim C1: for an existing hero, a PATCH /heroes/{hero_id} payload that
contains a password field is accepted exactly when hashing the submitted
password reproduces the stored hash (otherwise 409 is answered), and
consequently no sequence of PATCH /heroes requests changes any stored
(id, hashed password) pair, given that stored ids are unique (primary
keys). -/
theorem hero_patch_password_gate :
    (∀ db hero_id p pw h, p.password = some pw →
        db.heroes.find? (fun x => x.id == hero_id) = some h →
        ((∃ r, update_heroes db hero_id p = .ok r)
            ↔ hash_password pw = h.hashed_password)
        ∧ (hash_password pw ≠ h.hashed_password →
            update_heroes db hero_id p = .error (.http 409 ("password already taken"))))
    ∧ (∀ reqs db, (db.heroes.map (·.id)).Nodup →
        (apply_hero_patches reqs db).heroes.map (fun h => (h.id, h.hashed_password))
          = db.heroes.map (fun h => (h.id, h.hashed_password))) := by
  constructor
  · intro db hero_id p pw h hpw hfind
    have hmem : hero_id ∈ db.heroes.map (·.id) :=
      (mem_map_iff_find?_isSome _ _ _).mpr (by simp [hfind])
    have h409 : hash_password pw ≠ h.hashed_password →
        update_heroes db hero_id p = .error (.http 409 ("password already taken")) := by
      intro hh
      simp [update_heroes, hmem, hfind, hpw, hh]
    refine ⟨⟨?_, ?_⟩, h409⟩
    · rintro ⟨r, hr⟩
      by_contra hh
      rw [h409 hh] at hr
      simp at hr
    · intro hh
      refine ⟨(sqlmodel_update_hero h p (some (hash_password pw)),
               { db with heroes := db.heroes.map (fun x =>
                   if x.id == hero_id then sqlmodel_update_hero h p (some (hash_password pw)) else x) }), ?_⟩
      simp [update_heroes, hmem, hfind, hpw, hh]
  · intro reqs
    induction reqs with
    | nil => intro db hnd; rfl
    | cons r rs ih =>
      intro db hnd
      have hstep := hero_patch_step_preserves_pairs db r hnd
      have hids := hero_patch_step_preserves_ids db r hnd
      calc (apply_hero_patches (r :: rs) db).heroes.map (fun h => (h.id, h.hashed_password))
          = (apply_hero_patches rs (hero_patch_step db r)).heroes.map
              (fun h => (h.id, h.hashed_password)) := rfl
        _ = (hero_patch_step db r).heroes.map (fun h => (h.id, h.hashed_password)) :=
              ih _ (by rw [hids]; exact hnd)
        _ = db.heroes.map (fun h => (h.id, h.hashed_password)) := hstep

/-- Witness for claim C1: a concrete hero, a PATCH with the wrong password
answered 409, and a two-request sequence leaving the stored pair
unchanged. -/
theorem hero_patch_password_gate_witness :
    update_heroes
        { teams := [], heroes := [⟨1, "Deadpond", none, none, "Dive Wilson", "#$%chimichanga"⟩] } 1
        { name := none, secret_name := none, age := none, team_id := none,
          password := some ("guess") }
      = .error (.http 409 ("password already taken"))
    ∧ (apply_hero_patches
        [(1, { name := some ("Still Deadpond"), secret_name := none, age := none,
               team_id := none, password := none }),
         (1, { name := none, secret_name := none, age := some (some 30), team_id := none,
               password := some ("chimichanga") })]
        { teams := [], heroes := [⟨1, "Deadpond", none, none, "Dive Wilson", "#$%chimichanga"⟩] }
       ).heroes.map (fun h => (h.id, h.hashed_password))
      = [(1, "#$%chimichanga")] :=
  ⟨(hero_patch_password_gate.1
      { teams := [], heroes := [⟨1, "Deadpond", none, none, "Dive Wilson", "#$%chimichanga"⟩] } 1
      { name := none, secret_name := none, age := none, team_id := none,
        password := some ("guess") }
      "guess" ⟨1, "Deadpond", none, none, "Dive Wilson", "#$%chimichanga"⟩ rfl (by simp)).2
    (by decide),
   (hero_patch_password_gate.2 _
      { teams := [], heroes := [⟨1, "Deadpond", none, none, "Dive Wilson", "#$%chimichanga"⟩] }
      (by simp)).trans (by simp)⟩

/-- Claim C10: for an existing hero, a PATCH /heroes/{hero_id} payload
without a password field succeeds, and the stored hero keeps its hashed
password, and also its secret name when that field is not provided. -/
theorem hero_patch_without_password_frame (db : DB) (hero_id : Int) (p : HeroUpdate) (h : Hero)
    (hpw : p.password = none)
    (hfind : db.heroes.find? (fun x => x.id == hero_id) = some h) :
    ∃ h2, update_heroes db hero_id p
        = .ok (h2, { db with heroes := db.heroes.map (fun x =>
            if x.id == hero_id then h2 else x) })
      ∧ ({ db with heroes := db.heroes.map (fun x =>
            if x.id == hero_id then h2 else x) } : DB).heroes.find?
            (fun x => x.id == hero_id) = some h2
      ∧ h2.hashed_password = h.hashed_password
      ∧ (p.secret_name = none → h2.secret_name = h.secret_name) := by
  have hmem : hero_id ∈ db.heroes.map (·.id) :=
    (mem_map_iff_find?_isSome _ _ _).mpr (by simp [hfind])
  have hidi : h.id = hero_id := by simpa using List.find?_some hfind
  refine ⟨sqlmodel_update_hero h p none, ?_, ?_, rfl, ?_⟩
  · simp [update_heroes, hmem, hfind, hpw]
  · exact find?_map_replace _ _ h _ hidi hfind
  · intro hs
    simp [sqlmodel_update_hero, hs]

/-- Witness for claim C10: a concrete PATCH that only renames the hero
keeps its hashed password and secret name. -/
theorem hero_patch_without_password_frame_witness :
    ∃ h2, update_heroes
        { teams := [], heroes := [⟨1, "Deadpond", none, none, "Dive Wilson", "#$%chimichanga"⟩] } 1
        { name := some ("Deadpond II"), secret_name := none, age := none, team_id := none,
          password := none }
        = .ok (h2, { teams := [],
                     heroes := [⟨1, "Deadpond", none, none, "Dive Wilson", "#$%chimichanga"⟩].map
                       (fun x => if x.id == 1 then h2 else x) })
      ∧ ({ teams := ([] : List Team),
           heroes := [⟨1, "Deadpond", none, none, "Dive Wilson", "#$%chimichanga"⟩].map
             (fun x => if x.id == 1 then h2 else x) } : DB).heroes.find?
             (fun x => x.id == 1) = some h2
      ∧ h2.hashed_password = "#$%chimichanga"
      ∧ (h2.secret_name = "Dive Wilson") := by
  obtain ⟨h2, h1, h2f, h3, h4⟩ := hero_patch_without_password_frame
    { teams := [], heroes := [⟨1, "Deadpond", none, none, "Dive Wilson", "#$%chimichanga"⟩] } 1
    { name := some ("Deadpond II"), secret_name := none, age := none, team_id := none,
      password := none }
    ⟨1, "Deadpond", none, none, "Dive Wilson", "#$%chimichanga"⟩ rfl (by simp)
  exact ⟨h2, h1, h2f, h3, h4 rfl⟩

/-- Mapping an id-preserving function over a table with unique ids moves a
keyed lookup for a member to its image. -/
theorem find?_map_of_nodup (l : List Hero) (g : Hero → Hero)
    (hg : ∀ x, (g x).id = x.id) (h : Hero) (hmem : h ∈ l)
    (hnd : (l.map (·.id)).Nodup) :
    (l.map g).find? (fun x => x.id == h.id) = some (g h) := by
  induction l with
  | nil => cases hmem
  | cons a l ih =>
    rw [List.map_cons] at hnd
    obtain ⟨hna, hnd2⟩ := List.nodup_cons.mp hnd
    rcases List.mem_cons.mp hmem with rfl | hmem2
    · simp only [List.map_cons]
      rw [List.find?_cons_of_pos _ (by simp [hg])]
    · have hne : a.id ≠ h.id := by
        intro he
        exact hna (he ▸ List.mem_map_of_mem (fun y => y.id) hmem2)
      simp only [List.map_cons]
      rw [List.find?_cons_of_neg _ (by simp [hg, hne])]
      exact ih hmem2 hnd2

/-- Claim C7: deleting a team that an existing hero references does not
delete the hero: DELETE /teams/{team_id} succeeds, and the hero is still
retrievable by id through GET /heroes/{hero_id}, now with a null team_id
(stored hero ids are unique, being primary keys). -/
theorem team_delete_nullifies_heroes (db : DB) (team_id : Int) (t : Team) (h : Hero)
    (ht : db.teams.find? (fun x => x.id == team_id) = some t)
    (hmem : h ∈ db.heroes) (hteam : h.team_id = some team_id)
    (hnd : (db.heroes.map (·.id)).Nodup) :
    ∃ db2, delete_one_team db team_id = .ok (s!"team {t.name} deleted successfully", db2)
      ∧ get_one_hero db2 h.id = .ok { h with team_id := none } := by
  have htm : team_id ∈ db.teams.map (·.id) :=
    (mem_map_iff_find?_isSome _ _ _).mpr (by simp [ht])
  have hg : ∀ x : Hero,
      ((if x.team_id == some team_id then { x with team_id := none } else x) : Hero).id = x.id := by
    intro x
    split <;> rfl
  have hfind := find?_map_of_nodup db.heroes
    (fun x => if x.team_id == some team_id then { x with team_id := none } else x) hg h hmem hnd
  have hgh : (if h.team_id == some team_id then { h with team_id := none } else h)
      = { h with team_id := none } := by
    simp [hteam]
  refine ⟨{ teams := db.teams.filter (fun x => x.id != team_id),
            heroes := db.heroes.map (fun x =>
              if x.team_id == some team_id then { x with team_id := none } else x) }, ?_, ?_⟩
  · simp [delete_one_team, htm, ht]
  · have hmem2 : h.id ∈ (db.heroes.map (fun x =>
        if x.team_id == some team_id then { x with team_id := none } else x)).map (·.id) :=
      (mem_map_iff_find?_isSome _ _ _).mpr (by rw [hfind]; rfl)
    simp only [hteam, beq_self_eq_true, if_true, if_pos] at hfind
    simp only [get_one_hero]
    rw [if_neg (not_not_intro hmem2), hfind]

/-- Witness for claim C7: deleting the only team leaves its hero
retrievable with a null team_id. -/
theorem team_delete_nullifies_heroes_witness :
    ∃ db2, delete_one_team
        { teams := [⟨1, "Preventers", "Sharp Tower"⟩],
          heroes := [⟨2, "Rusty-Man", some 48, some 1, "Tommy Sharp", "#$%iron"⟩] } 1
        = .ok ("team Preventers deleted successfully", db2)
      ∧ get_one_hero db2 2
        = .ok ⟨2, "Rusty-Man", some 48, none, "Tommy Sharp", "#$%iron"⟩ :=
  team_delete_nullifies_heroes
    { teams := [⟨1, "Preventers", "Sharp Tower"⟩],
      heroes := [⟨2, "Rusty-Man", some 48, some 1, "Tommy Sharp", "#$%iron"⟩] }
    1 ⟨1, "Preventers", "Sharp Tower"⟩
    ⟨2, "Rusty-Man", some 48, some 1, "Tommy Sharp", "#$%iron"⟩
    (by simp) (by simp) rfl (by simp)
